import Mathlib

/-!
Shallow embedding of the habitability-calculator core of
src/exohabitability.py over the reals, together with theorems settling
the frozen claims about it.

The source is a single Streamlit script.  Its computational core
(lines 102-119) is straight-line real arithmetic on seven scalar
inputs; the input widgets (lines 48-99) restrict each input to a fixed
interval via min_value/max_value.  We embed the arithmetic as functions
on an `Inputs` structure and the widget ranges as the `Valid` predicate.
-/

noncomputable section

namespace Exo

/-- Gravitational constant, line 8 of the source. -/
def G : ℝ := 6.67430e-11

/-- Stefan-Boltzmann constant, line 9. -/
def sigma : ℝ := 5.670374419e-8

/-- Mass of the Sun in kg, line 10. -/
def M_sun : ℝ := 1.989e30

/-- Luminosity of the Sun in W, line 11. -/
def L_sun : ℝ := 3.828e26

/-- Earth mass in kg, line 12. -/
def M_earth : ℝ := 5.972e24

/-- Seconds in a day, line 13. -/
def DAY : ℝ := 86400.0

/-- Astronomical unit in meters, line 14. -/
def AU : ℝ := 1.496e11

/-- The seven scalar inputs of the calculator tab, in the order the
widgets are declared (lines 48-99). -/
structure Inputs where
  M_star : ℝ
  L_star_log : ℝ
  Planet_mass : ℝ
  e : ℝ
  A : ℝ
  P_days : ℝ
  i_deg : ℝ

/-- The ranges the number_input widgets enforce: `M_star ≥ 0.01`,
`Planet_mass ≥ 0`, `e ∈ [0, 0.99]`, `A ∈ [0, 1]`, `P_days ≥ 0.1`,
`i_deg ∈ [0, 180]`; the luminosity field `L_star_log` is unconstrained. -/
def Valid (x : Inputs) : Prop :=
  0.01 ≤ x.M_star ∧ 0 ≤ x.Planet_mass ∧
    0 ≤ x.e ∧ x.e ≤ 0.99 ∧ 0 ≤ x.A ∧ x.A ≤ 1 ∧
    0.1 ≤ x.P_days ∧ 0 ≤ x.i_deg ∧ x.i_deg ≤ 180

/-- Line 102: `P_sec = P_days * DAY`. -/
def P_sec (x : Inputs) : ℝ := x.P_days * DAY

/-- Line 103: `i_rad = math.radians(i_deg)`, i.e. degrees times π/180. -/
def i_rad (x : Inputs) : ℝ := x.i_deg * (Real.pi / 180)

/-- Line 104: `M_star_kg = M_star * M_sun`. -/
def M_star_kg (x : Inputs) : ℝ := x.M_star * M_sun

/-- Line 105: `M_p_kg = Planet_mass * M_earth`. -/
def M_p_kg (x : Inputs) : ℝ := x.Planet_mass * M_earth

/-- Lines 107-108: the radial-velocity amplitude
`K = (2π G / P_sec)**(1/3) * (M_p_kg * sin i_rad) / (M_star_kg + M_p_kg)**(2/3) * 1 / sqrt(1 - e**2)`,
with Python's left-to-right association preserved. -/
def K (x : Inputs) : ℝ :=
  (2 * Real.pi * G / P_sec x) ^ ((1 : ℝ) / 3) * (M_p_kg x * Real.sin (i_rad x)) /
      (M_star_kg x + M_p_kg x) ^ ((2 : ℝ) / 3) * 1 / Real.sqrt (1 - x.e ^ 2)

/-- Line 110: semi-major axis `a = ((G * M_star_kg * P_sec**2) / (4 π²))**(1/3)`. -/
def a (x : Inputs) : ℝ :=
  (G * M_star_kg x * P_sec x ^ 2 / (4 * Real.pi ^ 2)) ^ ((1 : ℝ) / 3)

/-- Line 112: `L_star = 10**L_star_log`. -/
def L_star (x : Inputs) : ℝ := (10 : ℝ) ^ x.L_star_log

/-- Line 113: `L_star_W = L_star * L_sun`. -/
def L_star_W (x : Inputs) : ℝ := L_star x * L_sun

/-- Line 114: incident flux `F = L_star_W / (4 π a²)`. -/
def F (x : Inputs) : ℝ := L_star_W x / (4 * Real.pi * a x ^ 2)

/-- Line 115: equilibrium temperature `T_eq = ((F * (1 - A)) / (4 σ))**0.25`. -/
def T_eq (x : Inputs) : ℝ := (F x * (1 - x.A) / (4 * sigma)) ^ (0.25 : ℝ)

/-- Line 117: `HZ_inner = 0.95 * sqrt(L_star) * AU`. -/
def HZ_inner (x : Inputs) : ℝ := 0.95 * Real.sqrt (L_star x) * AU

/-- Line 118: `HZ_outer = 1.67 * sqrt(L_star) * AU`. -/
def HZ_outer (x : Inputs) : ℝ := 1.67 * Real.sqrt (L_star x) * AU

open Classical in
/-- Line 119: the habitability label, `"✅ Likely Habitable"` iff
`HZ_inner <= a <= HZ_outer` (Python chained comparison, both ends
inclusive). -/
def habitability (x : Inputs) : String :=
  if HZ_inner x ≤ a x ∧ a x ≤ HZ_outer x then "✅ Likely Habitable"
  else "❌ Not in Habitable Zone"

/-- The spec's velocity-from-mass formula, written from the spec text:
`K = (2π·G/P)^(1/3) · M_p·sin(i) / (M_star + M_p)^(2/3) / sqrt(1 − e²)`
with period in seconds (× 86400 = DAY), inclination in radians and
masses in kg via the fixed constants. -/
def K_spec_formula (x : Inputs) : ℝ :=
  (2 * Real.pi * G / (x.P_days * DAY)) ^ ((1 : ℝ) / 3) *
      (x.Planet_mass * M_earth * Real.sin (x.i_deg * (Real.pi / 180))) /
      (x.M_star * M_sun + x.Planet_mass * M_earth) ^ ((2 : ℝ) / 3) /
      Real.sqrt (1 - x.e ^ 2)

/-- The spec's Kepler formula for the semi-major axis, from the spec text
`a = (G · M_star · P² / (4π²))^(1/3)` with the star mass in kg and the
period in seconds. -/
def a_spec_formula (x : Inputs) : ℝ :=
  (G * (x.M_star * M_sun) * (x.P_days * DAY) ^ 2 / (4 * Real.pi ^ 2)) ^ ((1 : ℝ) / 3)

/-- The spec's equilibrium-temperature formula, from the spec text:
`F = L_star / (4π·a²)`, `T_eq = (F·(1−A) / (4σ))^0.25`, with
`L = 10^(log10_L)` converted to watts by the solar-luminosity constant. -/
def T_eq_spec_formula (x : Inputs) : ℝ :=
  ((10 : ℝ) ^ x.L_star_log * L_sun / (4 * Real.pi * a x ^ 2) * (1 - x.A) / (4 * sigma)) ^
    (0.25 : ℝ)

/-- The spec's mass-from-velocity formula, from the spec text:
`M_p = K · sqrt(1 − e²) · M_star^(2/3) · (P / (2π·G))^(1/3) / sin(i)`
(star mass in kg, period in seconds, inclination in radians). -/
def M_p_from_K_spec (Kv : ℝ) (x : Inputs) : ℝ :=
  Kv * Real.sqrt (1 - x.e ^ 2) * (x.M_star * M_sun) ^ ((2 : ℝ) / 3) *
    (x.P_days * DAY / (2 * Real.pi * G)) ^ ((1 : ℝ) / 3) /
    Real.sin (x.i_deg * (Real.pi / 180))

/-- The default inputs of the calculator (widget `value=` arguments):
Sun-like star, Earth-like planet. -/
def xE : Inputs := ⟨1, 0, 1, 0, 0.3, 365, 90⟩

/-- C1: for every valid input, the code's radial-velocity amplitude K
(lines 107-108) equals the spec's velocity-from-mass formula with the
stated unit conversions. -/
theorem C1_K_matches_spec_formula (x : Inputs) (h : Valid x) :
    K x = K_spec_formula x := by
  simp only [K, K_spec_formula, P_sec, i_rad, M_star_kg, M_p_kg, mul_one]

/-- Witness for C1 at the calculator's default inputs. -/
theorem C1_witness : Valid xE ∧ K xE = K_spec_formula xE := by
  have hv : Valid xE := by
    refine ⟨?_, ?_, ?_, ?_, ?_, ?_, ?_, ?_, ?_⟩ <;> norm_num [xE]
  exact ⟨hv, C1_K_matches_spec_formula xE hv⟩

/-- C3: for positive star mass and period the code's semi-major axis
(line 110) equals the spec's Kepler formula, and it does not depend on
eccentricity, inclination, planet mass, albedo, or luminosity. -/
theorem C3_orbital_radius (x : Inputs) (hm : 0 < x.M_star) (hp : 0 < x.P_days) :
    a x = a_spec_formula x ∧
      ∀ mp ecc inc alb lg,
        a { x with Planet_mass := mp, e := ecc, i_deg := inc, A := alb, L_star_log := lg } =
          a x := by
  constructor
  · simp only [a, a_spec_formula, M_star_kg, P_sec]
  · intro mp ecc inc alb lg
    rfl

/-- Witness for C3 at the calculator's default inputs. -/
theorem C3_witness :
    (0 < xE.M_star ∧ 0 < xE.P_days) ∧
      (a xE = a_spec_formula xE ∧
        ∀ mp ecc inc alb lg,
          a { xE with Planet_mass := mp, e := ecc, i_deg := inc, A := alb, L_star_log := lg } =
            a xE) :=
  ⟨⟨by norm_num [xE], by norm_num [xE]⟩,
    C3_orbital_radius xE (by norm_num [xE]) (by norm_num [xE])⟩

/-- C4: for every valid input the code's equilibrium temperature
(lines 112-115) equals the spec's formula with flux `F = L/(4πa²)` and
`L = 10^(log10_L)` scaled by the solar luminosity. -/
theorem C4_T_eq_matches_spec_formula (x : Inputs) (h : Valid x) :
    T_eq x = T_eq_spec_formula x := by
  simp only [T_eq, T_eq_spec_formula, F, L_star_W, L_star]

/-- Witness for C4 at the calculator's default inputs. -/
theorem C4_witness : Valid xE ∧ T_eq xE = T_eq_spec_formula xE := by
  have hv : Valid xE := by
    refine ⟨?_, ?_, ?_, ?_, ?_, ?_, ?_, ?_, ?_⟩ <;> norm_num [xE]
  exact ⟨hv, C4_T_eq_matches_spec_formula xE hv⟩

/-- The two label strings of line 119 differ. -/
theorem habitable_label_ne :
    ("❌ Not in Habitable Zone" : String) ≠ "✅ Likely Habitable" := by
  decide

/-- C5: for every valid input the label is `"✅ Likely Habitable"` iff
`HZ_inner ≤ a ≤ HZ_outer`, and at either exact boundary the label is
`"✅ Likely Habitable"` (both ends inclusive). -/
theorem C5_habitable_zone (x : Inputs) (h : Valid x) :
    (habitability x = "✅ Likely Habitable" ↔ HZ_inner x ≤ a x ∧ a x ≤ HZ_outer x) ∧
      ((a x = HZ_inner x ∨ a x = HZ_outer x) → habitability x = "✅ Likely Habitable") := by
  have hlab : ∀ y : Inputs,
      habitability y = "✅ Likely Habitable" ↔ HZ_inner y ≤ a y ∧ a y ≤ HZ_outer y := by
    intro y
    unfold habitability
    split_ifs with hc
    · simp [hc]
    · simp [hc, habitable_label_ne]
  have hs : 0 ≤ Real.sqrt (L_star x) := Real.sqrt_nonneg _
  refine ⟨hlab x, ?_⟩
  rintro (hb | hb)
  · refine (hlab x).mpr ⟨le_of_eq hb.symm, ?_⟩
    rw [hb]
    unfold HZ_inner HZ_outer AU
    nlinarith
  · refine (hlab x).mpr ⟨?_, le_of_eq hb⟩
    rw [hb]
    unfold HZ_inner HZ_outer AU
    nlinarith

/-- Witness for C5 at the calculator's default inputs. -/
theorem C5_witness :
    Valid xE ∧
      ((habitability xE = "✅ Likely Habitable" ↔
          HZ_inner xE ≤ a xE ∧ a xE ≤ HZ_outer xE) ∧
        ((a xE = HZ_inner xE ∨ a xE = HZ_outer xE) →
          habitability xE = "✅ Likely Habitable")) := by
  have hv : Valid xE := by
    refine ⟨?_, ?_, ?_, ?_, ?_, ?_, ?_, ?_, ?_⟩ <;> norm_num [xE]
  exact ⟨hv, C5_habitable_zone xE hv⟩

/-- On valid inputs the period in seconds is positive. -/
theorem P_sec_pos (x : Inputs) (h : Valid x) : 0 < P_sec x := by
  obtain ⟨-, -, -, -, -, -, hp, -, -⟩ := h
  unfold P_sec DAY
  nlinarith

/-- On valid inputs `1 - e²` is positive (eccentricity at most 0.99). -/
theorem one_sub_e_sq_pos (x : Inputs) (h : Valid x) : 0 < 1 - x.e ^ 2 := by
  obtain ⟨-, -, he0, he1, -, -, -, -, -⟩ := h
  nlinarith

/-- On valid inputs `sqrt(1 - e²)` is positive. -/
theorem sqrt_one_sub_e_sq_pos (x : Inputs) (h : Valid x) :
    0 < Real.sqrt (1 - x.e ^ 2) :=
  Real.sqrt_pos.mpr (one_sub_e_sq_pos x h)

/-- On valid inputs the `(2πG/P)^(1/3)` factor of K is positive. -/
theorem K_first_factor_pos (x : Inputs) (h : Valid x) :
    0 < (2 * Real.pi * G / P_sec x) ^ ((1 : ℝ) / 3) := by
  have hbase : 0 < 2 * Real.pi * G / P_sec x := by
    have hG : (0 : ℝ) < G := by norm_num [G]
    exact div_pos (by positivity) (P_sec_pos x h)
  exact Real.rpow_pos_of_pos hbase _

/-- On valid inputs the total system mass in kg is positive. -/
theorem mass_sum_pos (x : Inputs) (h : Valid x) : 0 < M_star_kg x + M_p_kg x := by
  obtain ⟨hm, hmp, -, -, -, -, -, -, -⟩ := h
  unfold M_star_kg M_p_kg M_sun M_earth
  nlinarith

/-- On valid inputs the `(M_star + M_p)^(2/3)` factor of K is positive. -/
theorem K_mass_factor_pos (x : Inputs) (h : Valid x) :
    0 < (M_star_kg x + M_p_kg x) ^ ((2 : ℝ) / 3) :=
  Real.rpow_pos_of_pos (mass_sum_pos x h) _

/-- On valid inputs the inclination in radians lies in `[0, π]`. -/
theorem i_rad_mem (x : Inputs) (h : Valid x) : 0 ≤ i_rad x ∧ i_rad x ≤ Real.pi := by
  obtain ⟨-, -, -, -, -, -, -, hi0, hi1⟩ := h
  have hpi : (0 : ℝ) < Real.pi / 180 := by positivity
  constructor
  · exact mul_nonneg hi0 hpi.le
  · have := mul_le_mul_of_nonneg_right hi1 hpi.le
    calc i_rad x ≤ 180 * (Real.pi / 180) := this
    _ = Real.pi := by ring

/-- On valid inputs `sin(i_rad)` is nonnegative. -/
theorem sin_i_rad_nonneg (x : Inputs) (h : Valid x) : 0 ≤ Real.sin (i_rad x) :=
  Real.sin_nonneg_of_nonneg_of_le_pi (i_rad_mem x h).1 (i_rad_mem x h).2

/-- An input with inclination 0 and the other defaults of the widgets. -/
def x_incl0 : Inputs := ⟨1, 0, 1, 0, 0.3, 365, 0⟩

/-- C2 counterexample: inclination 0 passes every widget constraint and
the script returns the finite radial velocity K = 0; no error is raised. -/
theorem C2_counterexample : Valid x_incl0 ∧ K x_incl0 = 0 := by
  constructor
  · refine ⟨?_, ?_, ?_, ?_, ?_, ?_, ?_, ?_, ?_⟩ <;> norm_num [x_incl0]
  · have h0 : i_rad x_incl0 = 0 := by
      simp [i_rad, x_incl0]
    simp [K, h0]

/-- C2 amended: at inclination exactly 0 or 180 degrees the code's
velocity-from-mass formula multiplies by `sin(i)` instead of dividing,
so the evaluation succeeds and returns K = 0 — a finite value, never
infinity or NaN and never an error. -/
theorem C2_amended_sin_zero_gives_K_zero (x : Inputs) (h : Valid x)
    (hi : x.i_deg = 0 ∨ x.i_deg = 180) : K x = 0 := by
  have hs : Real.sin (i_rad x) = 0 := by
    rcases hi with hi | hi
    · rw [i_rad, hi, zero_mul, Real.sin_zero]
    · rw [i_rad, hi, show (180 : ℝ) * (Real.pi / 180) = Real.pi by ring, Real.sin_pi]
  simp [K, hs]

/-- Witness for the amended C2 at the counterexample input. -/
theorem C2_witness : Valid x_incl0 ∧ (x_incl0.i_deg = 0 ∨ x_incl0.i_deg = 180) ∧
    K x_incl0 = 0 := by
  have hv : Valid x_incl0 := by
    refine ⟨?_, ?_, ?_, ?_, ?_, ?_, ?_, ?_, ?_⟩ <;> norm_num [x_incl0]
  have hi : x_incl0.i_deg = 0 := by norm_num [x_incl0]
  exact ⟨hv, Or.inl hi, C2_amended_sin_zero_gives_K_zero x_incl0 hv (Or.inl hi)⟩

/-- The default input with the luminosity doubled (log10 form: the log
input moves by log10 of 2). -/
def xL2 : Inputs := { xE with L_star_log := Real.logb 10 2 }

/-- C8: whenever one input's luminosity is exactly twice another's, both
habitable-zone boundaries are multiplied by sqrt 2. -/
theorem C8_hz_boundaries_scale_sqrt (x y : Inputs) (h : L_star y = 2 * L_star x) :
    HZ_inner y = Real.sqrt 2 * HZ_inner x ∧ HZ_outer y = Real.sqrt 2 * HZ_outer x := by
  have h2 : Real.sqrt (L_star y) = Real.sqrt 2 * Real.sqrt (L_star x) := by
    rw [h, Real.sqrt_mul (by norm_num : (0 : ℝ) ≤ 2)]
  constructor
  · unfold HZ_inner
    rw [h2]
    ring
  · unfold HZ_outer
    rw [h2]
    ring

/-- Witness for C8: `xL2` has exactly twice the luminosity of `xE`. -/
theorem C8_witness : L_star xL2 = 2 * L_star xE ∧
    HZ_inner xL2 = Real.sqrt 2 * HZ_inner xE ∧
      HZ_outer xL2 = Real.sqrt 2 * HZ_outer xE := by
  have hL : L_star xL2 = 2 * L_star xE := by
    show (10 : ℝ) ^ xL2.L_star_log = 2 * (10 : ℝ) ^ xE.L_star_log
    have h1 : xL2.L_star_log = Real.logb 10 2 := rfl
    have h2 : xE.L_star_log = 0 := rfl
    rw [h1, h2, Real.rpow_zero, Real.rpow_logb (by norm_num) (by norm_num) (by norm_num)]
    ring
  exact ⟨hL, C8_hz_boundaries_scale_sqrt xE xL2 hL⟩

/-- A comparison input for C9: same as the defaults except a heavier
star. -/
def xBigM : Inputs := ⟨2, 0, 1, 0, 0.3, 365, 90⟩

/-- A comparison input for C9: same as the defaults except a longer
period. -/
def xBigP : Inputs := ⟨1, 0, 1, 0, 0.3, 730, 90⟩

/-- C9: the semi-major axis is strictly increasing in star mass (period
fixed) and strictly increasing in period (star mass fixed), for positive
values. -/
theorem C9_a_strictly_monotone (x y : Inputs) (hm : 0 < x.M_star) (hp : 0 < x.P_days) :
    (y.P_days = x.P_days → x.M_star < y.M_star → a x < a y) ∧
      (y.M_star = x.M_star → x.P_days < y.P_days → a x < a y) := by
  have hbase : 0 ≤ G * M_star_kg x * P_sec x ^ 2 / (4 * Real.pi ^ 2) := by
    unfold M_star_kg P_sec G M_sun DAY
    positivity
  constructor
  · intro hPeq hlt
    unfold a
    refine Real.rpow_lt_rpow hbase ?_ (by norm_num)
    unfold M_star_kg P_sec G M_sun DAY
    rw [hPeq]
    have hP2 : 0 < (x.P_days * 86400.0) ^ 2 := by positivity
    rw [div_lt_div_iff_of_pos_right (by positivity : (0 : ℝ) < 4 * Real.pi ^ 2)]
    nlinarith
  · intro hMeq hlt
    unfold a
    refine Real.rpow_lt_rpow hbase ?_ (by norm_num)
    unfold M_star_kg P_sec G M_sun DAY
    rw [hMeq]
    have hM : 0 < x.M_star * 1.989e30 := by positivity
    have hP2 : (x.P_days * 86400.0) ^ 2 < (y.P_days * 86400.0) ^ 2 := by nlinarith
    rw [div_lt_div_iff_of_pos_right (by positivity : (0 : ℝ) < 4 * Real.pi ^ 2)]
    nlinarith

/-- Witness for C9: the default inputs against a same-period heavier
star and against a same-mass longer period, with both guards
discharged, so both strict inequalities are exhibited concretely. -/
theorem C9_witness : (0 < xE.M_star ∧ 0 < xE.P_days) ∧
    a xE < a xBigM ∧ a xE < a xBigP :=
  ⟨⟨by norm_num [xE], by norm_num [xE]⟩,
    (C9_a_strictly_monotone xE xBigM (by norm_num [xE]) (by norm_num [xE])).1
      (by norm_num [xBigM, xE]) (by norm_num [xBigM, xE]),
    (C9_a_strictly_monotone xE xBigP (by norm_num [xE]) (by norm_num [xE])).2
      (by norm_num [xBigP, xE]) (by norm_num [xBigP, xE])⟩

/-- C10: planet mass, eccentricity and inclination do not affect the
orbital radius, equilibrium temperature or habitability label; and on
the accepted ranges K is nonnegative, with K = 0 exactly when the
planet mass is 0 or `sin(i_rad)` is 0. -/
theorem C10_frame_and_K_sign (x : Inputs) (h : Valid x) :
    (∀ mp ecc inc,
        a { x with Planet_mass := mp, e := ecc, i_deg := inc } = a x ∧
          T_eq { x with Planet_mass := mp, e := ecc, i_deg := inc } = T_eq x ∧
          habitability { x with Planet_mass := mp, e := ecc, i_deg := inc } =
            habitability x) ∧
      0 ≤ K x ∧ (K x = 0 ↔ x.Planet_mass = 0 ∨ Real.sin (i_rad x) = 0) := by
  have hT := K_first_factor_pos x h
  have hD := K_mass_factor_pos x h
  have hS := sqrt_one_sub_e_sq_pos x h
  have hsin := sin_i_rad_nonneg x h
  have hME : M_earth ≠ 0 := by norm_num [M_earth]
  have hMp : 0 ≤ M_p_kg x := mul_nonneg h.2.1 (by norm_num [M_earth])
  refine ⟨fun mp ecc inc => ⟨rfl, rfl, rfl⟩, ?_, ?_⟩
  · unfold K
    exact div_nonneg
      (mul_nonneg
        (div_nonneg (mul_nonneg hT.le (mul_nonneg hMp hsin)) hD.le) zero_le_one)
      hS.le
  · have hiff : K x = 0 ↔ M_p_kg x * Real.sin (i_rad x) = 0 := by
      unfold K
      rw [mul_one, div_eq_zero_iff, div_eq_zero_iff, mul_eq_zero]
      constructor
      · rintro (((h1 | h2) | h3) | h4)
        · exact absurd h1 hT.ne'
        · exact h2
        · exact absurd h3 hD.ne'
        · exact absurd h4 hS.ne'
      · exact fun h2 => Or.inl (Or.inl (Or.inr h2))
    rw [hiff, mul_eq_zero]
    simp only [M_p_kg, mul_eq_zero]
    simp [hME]

/-- Witness for C10 at the calculator's default inputs. -/
theorem C10_witness : Valid xE ∧
    ((∀ mp ecc inc,
        a { xE with Planet_mass := mp, e := ecc, i_deg := inc } = a xE ∧
          T_eq { xE with Planet_mass := mp, e := ecc, i_deg := inc } = T_eq xE ∧
          habitability { xE with Planet_mass := mp, e := ecc, i_deg := inc } =
            habitability xE) ∧
      0 ≤ K xE ∧ (K xE = 0 ↔ xE.Planet_mass = 0 ∨ Real.sin (i_rad xE) = 0)) := by
  have hv : Valid xE := by
    refine ⟨?_, ?_, ?_, ?_, ?_, ?_, ?_, ?_, ?_⟩ <;> norm_num [xE]
  exact ⟨hv, C10_frame_and_K_sign xE hv⟩

/-- The exact value of the round trip: producing K from a planet mass via
the code's velocity-from-mass formula and feeding it to the spec's
mass-from-velocity formula returns the original mass in kg scaled by
`(M_star / (M_star + M_p))^(2/3)`, because the code's K divides by the
total system mass to the 2/3 power while the spec's inverse formula
multiplies back only the stellar mass to the 2/3 power. -/
theorem roundtrip_value (x : Inputs) (h : Valid x) (h0 : 0 < x.i_deg)
    (h180 : x.i_deg < 180) :
    M_p_from_K_spec (K x) x =
      M_p_kg x * (M_star_kg x / (M_star_kg x + M_p_kg x)) ^ ((2 : ℝ) / 3) := by
  have hG : (0 : ℝ) < G := by norm_num [G]
  have h2piG : 0 < 2 * Real.pi * G := mul_pos (mul_pos two_pos Real.pi_pos) hG
  have hP : 0 < x.P_days * DAY := P_sec_pos x h
  have hS := sqrt_one_sub_e_sq_pos x h
  have hθ0 : 0 < x.i_deg * (Real.pi / 180) := mul_pos h0 (by positivity)
  have hθπ : x.i_deg * (Real.pi / 180) < Real.pi := by
    calc x.i_deg * (Real.pi / 180) < 180 * (Real.pi / 180) :=
          mul_lt_mul_of_pos_right h180 (by positivity)
    _ = Real.pi := by ring
  have hsin : 0 < Real.sin (x.i_deg * (Real.pi / 180)) :=
    Real.sin_pos_of_pos_of_lt_pi hθ0 hθπ
  have hMs : 0 ≤ x.M_star * M_sun := by
    have h1 : (0 : ℝ) ≤ x.M_star := le_trans (by norm_num) h.1
    exact mul_nonneg h1 (by norm_num [M_sun])
  have hsum : 0 ≤ x.M_star * M_sun + x.Planet_mass * M_earth := (mass_sum_pos x h).le
  have hT1 : (2 * Real.pi * G / (x.P_days * DAY)) ^ ((1 : ℝ) / 3) *
      (x.P_days * DAY / (2 * Real.pi * G)) ^ ((1 : ℝ) / 3) = 1 := by
    rw [← Real.mul_rpow (div_pos h2piG hP).le (div_pos hP h2piG).le,
      div_mul_div_comm,
      show 2 * Real.pi * G * (x.P_days * DAY) / (x.P_days * DAY * (2 * Real.pi * G)) = 1
        from by
          rw [mul_comm (x.P_days * DAY) (2 * Real.pi * G)]
          exact div_self (mul_pos h2piG hP).ne']
    exact Real.one_rpow _
  simp only [M_p_from_K_spec, K, M_star_kg, M_p_kg, P_sec, i_rad]
  rw [Real.div_rpow hMs hsum]
  set T := (2 * Real.pi * G / (x.P_days * DAY)) ^ ((1 : ℝ) / 3) with hTd
  set Tv := (x.P_days * DAY / (2 * Real.pi * G)) ^ ((1 : ℝ) / 3) with hTvd
  set A23 := (x.M_star * M_sun) ^ ((2 : ℝ) / 3) with hAd
  set D := (x.M_star * M_sun + x.Planet_mass * M_earth) ^ ((2 : ℝ) / 3) with hDd
  set S := Real.sqrt (1 - x.e ^ 2) with hSd
  set sn := Real.sin (x.i_deg * (Real.pi / 180)) with hsnd
  set Mp := x.Planet_mass * M_earth with hMpd
  calc T * (Mp * sn) / D * 1 / S * S * A23 * Tv / sn
      = Mp * (A23 / D) * (T * Tv) * (S / S) * (sn / sn) := by ring
    _ = Mp * (A23 / D) := by
        rw [hT1, div_self hS.ne', div_self hsin.ne']
        ring

/-- C6 amended: the round trip does not return the original mass; it
returns the mass scaled by `(M_star / (M_star + M_p))^(2/3)` exactly, so
it is strictly below the original mass for every positive planet mass and
matches it only in the limit of a negligible planet. -/
theorem C6_roundtrip_scaled (x : Inputs) (h : Valid x) (h0 : 0 < x.i_deg)
    (h180 : x.i_deg < 180) :
    M_p_from_K_spec (K x) x =
        M_p_kg x * (M_star_kg x / (M_star_kg x + M_p_kg x)) ^ ((2 : ℝ) / 3) ∧
      (0 < x.Planet_mass → M_p_from_K_spec (K x) x < M_p_kg x) := by
  refine ⟨roundtrip_value x h h0 h180, fun hmp => ?_⟩
  have hMp : 0 < M_p_kg x := mul_pos hmp (by norm_num [M_earth])
  have hsum := mass_sum_pos x h
  have hr0 : 0 ≤ M_star_kg x / (M_star_kg x + M_p_kg x) := by
    have hMs : 0 ≤ M_star_kg x := by
      have h1 : (0 : ℝ) ≤ x.M_star := le_trans (by norm_num) h.1
      exact mul_nonneg h1 (by norm_num [M_sun])
    exact div_nonneg hMs hsum.le
  have hr1 : M_star_kg x / (M_star_kg x + M_p_kg x) < 1 := by
    rw [div_lt_one hsum]
    linarith
  have hpow : (M_star_kg x / (M_star_kg x + M_p_kg x)) ^ ((2 : ℝ) / 3) < 1 :=
    Real.rpow_lt_one hr0 hr1 (by norm_num)
  calc M_p_from_K_spec (K x) x
      = M_p_kg x * (M_star_kg x / (M_star_kg x + M_p_kg x)) ^ ((2 : ℝ) / 3) :=
        roundtrip_value x h h0 h180
    _ < M_p_kg x * 1 := by exact mul_lt_mul_of_pos_left hpow hMp
    _ = M_p_kg x := mul_one _

/-- A valid input whose planet outweighs its star: 100000 Earth masses
against a 0.01-solar-mass star. -/
def xHeavy : Inputs := ⟨0.01, 0, 100000, 0, 0.3, 365, 90⟩

/-- Evaluating `(1/8)^(2/3)` exactly. -/
theorem one_eighth_rpow : ((1 : ℝ) / 8) ^ ((2 : ℝ) / 3) = 1 / 4 := by
  rw [show ((1 : ℝ) / 8) = ((1 : ℝ) / 2) ^ ((3 : ℕ) : ℝ) from by
        rw [Real.rpow_natCast]
        norm_num,
    ← Real.rpow_mul (by norm_num : (0 : ℝ) ≤ 1 / 2),
    show ((3 : ℕ) : ℝ) * (2 / 3) = ((2 : ℕ) : ℝ) from by norm_num,
    Real.rpow_natCast]
  norm_num

/-- C6 counterexample: at `xHeavy` — a valid input with inclination 90° —
the round trip returns less than half the original planet mass, far
outside any floating-point tolerance. -/
theorem C6_counterexample :
    Valid xHeavy ∧ 0 < xHeavy.i_deg ∧ xHeavy.i_deg < 180 ∧ 0 < M_p_kg xHeavy ∧
      M_p_from_K_spec (K xHeavy) xHeavy < M_p_kg xHeavy / 2 := by
  have hv : Valid xHeavy := by
    refine ⟨?_, ?_, ?_, ?_, ?_, ?_, ?_, ?_, ?_⟩ <;> norm_num [xHeavy]
  have h0 : (0 : ℝ) < xHeavy.i_deg := by norm_num [xHeavy]
  have h180 : xHeavy.i_deg < 180 := by norm_num [xHeavy]
  have hMp : 0 < M_p_kg xHeavy := by norm_num [M_p_kg, M_earth, xHeavy]
  refine ⟨hv, h0, h180, hMp, ?_⟩
  have hr : M_star_kg xHeavy / (M_star_kg xHeavy + M_p_kg xHeavy) < 1 / 8 := by
    norm_num [M_star_kg, M_p_kg, M_sun, M_earth, xHeavy]
  have hr0 : 0 ≤ M_star_kg xHeavy / (M_star_kg xHeavy + M_p_kg xHeavy) := by
    norm_num [M_star_kg, M_p_kg, M_sun, M_earth, xHeavy]
  have hpow : (M_star_kg xHeavy / (M_star_kg xHeavy + M_p_kg xHeavy)) ^ ((2 : ℝ) / 3) <
      ((1 : ℝ) / 8) ^ ((2 : ℝ) / 3) :=
    Real.rpow_lt_rpow hr0 hr (by norm_num)
  calc M_p_from_K_spec (K xHeavy) xHeavy
      = M_p_kg xHeavy *
          (M_star_kg xHeavy / (M_star_kg xHeavy + M_p_kg xHeavy)) ^ ((2 : ℝ) / 3) :=
        roundtrip_value xHeavy hv h0 h180
    _ < M_p_kg xHeavy * ((1 : ℝ) / 8) ^ ((2 : ℝ) / 3) :=
        mul_lt_mul_of_pos_left hpow hMp
    _ = M_p_kg xHeavy * (1 / 4) := by rw [one_eighth_rpow]
    _ < M_p_kg xHeavy / 2 := by linarith

/-- Witness for the amended C6 at the calculator's default inputs. -/
theorem C6_witness : (Valid xE ∧ 0 < xE.i_deg ∧ xE.i_deg < 180) ∧
    (M_p_from_K_spec (K xE) xE =
        M_p_kg xE * (M_star_kg xE / (M_star_kg xE + M_p_kg xE)) ^ ((2 : ℝ) / 3) ∧
      (0 < xE.Planet_mass → M_p_from_K_spec (K xE) xE < M_p_kg xE)) := by
  have hv : Valid xE := by
    refine ⟨?_, ?_, ?_, ?_, ?_, ?_, ?_, ?_, ?_⟩ <;> norm_num [xE]
  have h0 : (0 : ℝ) < xE.i_deg := by norm_num [xE]
  have h180 : xE.i_deg < 180 := by norm_num [xE]
  exact ⟨⟨hv, h0, h180⟩, C6_roundtrip_scaled xE hv h0 h180⟩

/-- The derived scalar outputs of one evaluation. -/
structure Outputs where
  K : ℝ
  a : ℝ
  T_eq : ℝ
  habitability : String

/-- The Step 2-5 formula block (lines 102-119) bundled as one pure
function. -/
def compute (x : Inputs) : Outputs :=
  ⟨K x, a x, T_eq x, habitability x⟩

open Classical in
/-- Modelled from the spec: the per-field input validation.  The widget
library that enforces the `min_value`/`max_value` arguments of lines
48-99 before the calculation block runs is not part of src/, so its
behavior — each field checked against its declared range, an
out-of-range value rejected with that field's label before anything is
computed — is modelled here from the spec's words; the bounds and
labels themselves are taken verbatim from the source. -/
def checkInputs (x : Inputs) : Except String Inputs :=
  if ¬ 0.01 ≤ x.M_star then .error "Star Mass (M☉)"
  else if ¬ 0 ≤ x.Planet_mass then .error "Planet Mass (M⊕)"
  else if ¬ (0 ≤ x.e ∧ x.e ≤ 0.99) then .error "Eccentricity (0=circle)"
  else if ¬ (0 ≤ x.A ∧ x.A ≤ 1) then .error "Albedo (reflectivity)"
  else if ¬ 0.1 ≤ x.P_days then .error "Orbital Period (days)"
  else if ¬ (0 ≤ x.i_deg ∧ x.i_deg ≤ 180) then .error "Inclination (degrees)"
  else .ok x

/-- One full evaluation: validation first, the formula block only on
validated input. -/
def evaluate (x : Inputs) : Except String Outputs :=
  (checkInputs x).map compute

/-- C7: a non-positive star mass or period is rejected with a field
label before the formula block runs (the evaluation returns that error
and never `compute`), and the luminosity — entered in log10 form — is
positive on every input, so a non-positive luminosity can never reach
the formulas at all. -/
theorem C7_validation_before_formulas (x : Inputs)
    (hbad : x.M_star ≤ 0 ∨ x.P_days ≤ 0) :
    (∃ fld, checkInputs x = Except.error fld ∧ evaluate x = Except.error fld) ∧
      0 < L_star x := by
  constructor
  · have hc : ∃ fld, checkInputs x = Except.error fld := by
      unfold checkInputs
      split_ifs with h1 h2 h3 h4 h5 h6
      all_goals try exact ⟨_, rfl⟩
      exfalso
      rcases hbad with hb | hb <;> linarith
    obtain ⟨fld, hfld⟩ := hc
    refine ⟨fld, hfld, ?_⟩
    unfold evaluate
    rw [hfld]
    rfl
  · exact Real.rpow_pos_of_pos (by norm_num) _

/-- An input with a negative star mass (and otherwise default values). -/
def xNegMass : Inputs := ⟨-1, 0, 1, 0, 0.3, 365, 90⟩

/-- Witness for C7 at a negative star mass. -/
theorem C7_witness : (xNegMass.M_star ≤ 0 ∨ xNegMass.P_days ≤ 0) ∧
    ((∃ fld, checkInputs xNegMass = Except.error fld ∧
        evaluate xNegMass = Except.error fld) ∧
      0 < L_star xNegMass) := by
  have hbad : xNegMass.M_star ≤ 0 ∨ xNegMass.P_days ≤ 0 := by
    left
    norm_num [xNegMass]
  exact ⟨hbad, C7_validation_before_formulas xNegMass hbad⟩

end Exo
